import Mathlib

/-!
Shallow embedding of the invocation and readiness-gate layer of
dracclient (src/dracclient/dracclient/client.py), together with the
subsystem commit/abandon wrappers of class DRACClient.

Modelling conventions:
* The WS-Man transport (wsman.Client, out of scope per the design
  document) is abstracted: the response it would return for the one raw
  call an operation makes is passed in as an argument, and each external
  effect (probe call, sleep, raw transport call) is recorded in an event
  trace so that call/sleep counting and ordering can be stated.
* A response element is modelled as a record of the three fields the
  client reads out of it: the ReturnValue text, the texts of the Message
  elements, and the MessageID text.
* Exceptions are modelled as an inductive error type returned through
  Except; raising is returning the error, propagation is monadic.
-/

namespace Dracclient

/-- Payload of a DRACOperationFailed exception: the drac_messages keyword
argument is passed a single string at the readiness timeout
(client.py line 879) and a list of strings in invoke (line 797). -/
inductive DracMessages where
  | str (s : String)
  | list (l : List String)
deriving DecidableEq, Repr

/-- The exception kinds of dracclient.exceptions that the specified layer
can raise (transport failure, invalid response, remote operation failure,
unexpected return value). They are distinct constructors. -/
inductive DRACException where
  | WSManRequestFailure (reason : String)
  | WSManInvalidResponse (reason : String)
  | DRACOperationFailed (drac_messages : DracMessages)
  | DRACUnexpectedReturnValue (expected_return_value actual_return_value : String)
deriving DecidableEq, Repr

/-- A transport response element, restricted to the fields the client
extracts with utils.find_xml: the ReturnValue text, the list of Message
element texts, and the MessageID text. -/
structure Response where
  returnValue : String
  messages : List String
  messageID : String
deriving DecidableEq, Repr

/-- Observable external events of one client operation, in order:
a call to the readiness probe is_idrac_ready, a time.sleep of the given
delay, a raw transport invoke (super().invoke) with its arguments, or a
raw transport enumerate (super().enumerate). -/
inductive Event where
  | probeCall
  | sleepCall (delay : Int)
  | transportInvoke (resource_uri method : String)
      (selectors properties : List (String × String))
  | transportEnumerate (resource_uri : String) (optimization : Bool)
      (max_elems : Int) (auto_pull : Bool) (filter_query : Option String)
      (filter_dialect : String)
deriving DecidableEq, Repr

/-- Result of an operation: the normal/exceptional outcome together with
the trace of external events it performed. -/
abbrev DRACResult (α : Type) := Except DRACException α × List Event

/-- Modelled from the spec: the ERROR return-code sentinel
(utils.RET_ERROR, in dracclient/utils.py which is not under src/).
The spec only requires it to be a fixed code distinct from SUCCESS. -/
def RET_ERROR : String := "2"

/-- Modelled from the spec: the SUCCESS return-code sentinel
(utils.RET_SUCCESS, in dracclient/utils.py which is not under src/). -/
def RET_SUCCESS : String := "0"

/-- client.py line 34: the MessageID value signalling iDRAC readiness. -/
def IDRAC_IS_READY : String := "LC061"

namespace uris

/-- Modelled from the spec: opaque resource URI of the Lifecycle
Controller service (dracclient/resources/uris.py, not under src/). -/
def DCIM_LCService : String :=
  "http://schemas.dell.com/wbem/wscim/1/cim-schema/2/DCIM_LCService"

/-- Modelled from the spec: opaque resource URI of the BIOS service
(dracclient/resources/uris.py, not under src/). -/
def DCIM_BIOSService : String :=
  "http://schemas.dell.com/wbem/wscim/1/cim-schema/2/DCIM_BIOSService"

/-- Modelled from the spec: opaque resource URI of the RAID service
(dracclient/resources/uris.py, not under src/). -/
def DCIM_RAIDService : String :=
  "http://schemas.dell.com/wbem/wscim/1/cim-schema/2/DCIM_RAIDService"

/-- Modelled from the spec: opaque resource URI of the iDRAC card service
(dracclient/resources/uris.py, not under src/). -/
def DCIM_iDRACCardService : String :=
  "http://schemas.dell.com/wbem/wscim/1/cim-schema/2/DCIM_iDRACCardService"

end uris

/-- The readiness retry policy a WSManClient instance stores at
construction (client.py lines 715-716). -/
structure Session where
  ready_retries : Int
  ready_retry_delay : Int
deriving DecidableEq, Repr

/-- client.py line 877: the timeout error message. -/
def TIMEOUT_MSG : String := "Timed out waiting for the iDRAC to become ready"

/-- The while loop of WSManClient.wait_until_idrac_is_ready (client.py
lines 864-879) for a non-negative initial retries value, recursing on
that value. The prober argument gives the outcome of the n-th call to
self.is_idrac_ready (an exception from the probe propagates out of the
loop, client.py line 867).

Correspondence with the source loop: each iteration with retries > 0
makes one probe call; on ready it returns; otherwise retries is
decremented and, if the decremented value is still positive, the loop
sleeps retry_delay before the next probe. When the loop is left with
retries == 0 the timeout error is raised (lines 876-879). -/
def waitGoNat (prober : Nat → Except DRACException Bool) (retry_delay : Int) :
    Nat → Nat → DRACResult Unit
  | 0, _ => (.error (.DRACOperationFailed (.str TIMEOUT_MSG)), [])
  | n + 1, idx =>
    match prober idx with
    | .error e => (.error e, [.probeCall])
    | .ok true => (.ok (), [.probeCall])
    | .ok false =>
      let rest := waitGoNat prober retry_delay n (idx + 1)
      if 0 < n then (rest.1, .probeCall :: .sleepCall retry_delay :: rest.2)
      else (rest.1, .probeCall :: rest.2)

/-- WSManClient.wait_until_idrac_is_ready (client.py lines 839-879).
None arguments default to the session policy (lines 857-861). A negative
retries value never enters the while loop and fails the final
retries == 0 test, so the method returns normally; a non-negative value
runs the loop embedded in waitGoNat. -/
def wait_until_idrac_is_ready (sess : Session)
    (prober : Nat → Except DRACException Bool)
    (retries retry_delay : Option Int) : DRACResult Unit :=
  let r : Int := match retries with
    | none => sess.ready_retries
    | some n => n
  let d : Int := match retry_delay with
    | none => sess.ready_retry_delay
    | some n => n
  if r < 0 then (.ok (), [])
  else waitGoNat prober d r.toNat 0

/-- The event trace of k probe attempts with a sleep between consecutive
attempts and none after the last: probe, sleep, probe, sleep, ..., probe. -/
def probeSleepTrace (d : Int) : Nat → List Event
  | 0 => []
  | 1 => [.probeCall]
  | k + 2 => .probeCall :: .sleepCall d :: probeSleepTrace d (k + 1)

/-- The return-code validation block of WSManClient.invoke (client.py
lines 789-805): with check_return_value set, an ERROR return value
raises DRACOperationFailed carrying the texts of all Message elements; a
supplied expected_return_value differing from the actual value raises
DRACUnexpectedReturnValue carrying both; otherwise the response is
returned unchanged. -/
def invokeValidate (resp : Response) (expected_return_value : Option String)
    (check_return_value : Bool) : Except DRACException Response :=
  if check_return_value then
    let return_value := resp.returnValue
    if return_value = RET_ERROR then
      .error (.DRACOperationFailed (.list resp.messages))
    else
      match expected_return_value with
      | some expected =>
        if return_value ≠ expected then
          .error (.DRACUnexpectedReturnValue expected return_value)
        else .ok resp
      | none => .ok resp
  else .ok resp

/-- WSManClient.invoke (client.py lines 747-805). The response the raw
transport call (super().invoke, line 786) would produce is the
transport_resp argument. When wait_for_idrac is set the readiness gate
runs first with the session-default policy (lines 777-778) and its
failure propagates; selectors and properties default to empty mappings
when None (lines 780-784); then the return-code validation of
invokeValidate is applied (lines 789-805). -/
def invoke (sess : Session) (prober : Nat → Except DRACException Bool)
    (resource_uri method : String)
    (selectors properties : Option (List (String × String)))
    (transport_resp : Response)
    (expected_return_value : Option String)
    (wait_for_idrac check_return_value : Bool) : DRACResult Response :=
  let gate : DRACResult Unit :=
    if wait_for_idrac then wait_until_idrac_is_ready sess prober none none
    else (.ok (), [])
  match gate.1 with
  | .error e => (.error e, gate.2)
  | .ok _ =>
    let sel := match selectors with
      | none => []
      | some s => s
    let props := match properties with
      | none => []
      | some ps => ps
    (invokeValidate transport_resp expected_return_value check_return_value,
      gate.2 ++ [.transportInvoke resource_uri method sel props])

/-- WSManClient.enumerate (client.py lines 718-745): when wait_for_idrac
is set the readiness gate runs first (lines 740-741); the raw transport
response (super().enumerate, lines 743-745) is then returned with no
return-code validation of any kind. -/
def enumerate (sess : Session) (prober : Nat → Except DRACException Bool)
    (resource_uri : String) (optimization : Bool) (max_elems : Int)
    (auto_pull : Bool) (filter_query : Option String) (filter_dialect : String)
    (transport_resp : Response) (wait_for_idrac : Bool) : DRACResult Response :=
  let gate : DRACResult Unit :=
    if wait_for_idrac then wait_until_idrac_is_ready sess prober none none
    else (.ok (), [])
  match gate.1 with
  | .error e => (.error e, gate.2)
  | .ok _ =>
    (.ok transport_resp,
      gate.2 ++ [.transportEnumerate resource_uri optimization max_elems
        auto_pull filter_query filter_dialect])

/-- The fixed selector set of WSManClient.is_idrac_ready (client.py
lines 821-824). -/
def is_idrac_ready_selectors : List (String × String) :=
  [("SystemCreationClassName", "DCIM_ComputerSystem"),
   ("SystemName", "DCIM:ComputerSystem"),
   ("CreationClassName", "DCIM_LCService"),
   ("Name", "DCIM:LCService")]

/-- WSManClient.is_idrac_ready (client.py lines 807-837): a single
invoke of GetRemoteServicesAPIStatus on the Lifecycle Controller service
with expected_return_value RET_SUCCESS and wait_for_idrac False (and
check_return_value left at its default True); the probe reports whether
the MessageID text of the response equals IDRAC_IS_READY (line 837). -/
def is_idrac_ready (sess : Session) (prober : Nat → Except DRACException Bool)
    (transport_resp : Response) : DRACResult Bool :=
  let result := invoke sess prober uris.DCIM_LCService
    "GetRemoteServicesAPIStatus" (some is_idrac_ready_selectors) (some [])
    transport_resp (some RET_SUCCESS) false true
  match result.1 with
  | .error e => (.error e, result.2)
  | .ok r => (.ok (r.messageID == IDRAC_IS_READY), result.2)

/-- The parameters of one JobManagement.create_config_job call. -/
structure ConfigJobCall where
  resource_uri : String
  cim_creation_class_name : String
  cim_name : String
  target : String
  cim_system_creation_class_name : String
  cim_system_name : String
  reboot : Bool
deriving DecidableEq, Repr

/-- The parameters of one JobManagement.delete_pending_config call. -/
structure DeletePendingCall where
  resource_uri : String
  cim_creation_class_name : String
  cim_name : String
  target : String
  cim_system_creation_class_name : String
  cim_system_name : String
deriving DecidableEq, Repr

namespace JobManagement

/-- Modelled from the spec: JobManagement.create_config_job
(dracclient/resources/job.py, not under src/). Per the design document
it invokes a create-targeted-config-job method against the given CIM
service identity and returns the job id the controller reports; it is
modelled here as the descriptor of that call. Call sites that omit the
scoping-system parameters get the defaults DCIM_ComputerSystem and
DCIM:ComputerSystem the spec assigns to the identity tuple. -/
def create_config_job (resource_uri cim_creation_class_name cim_name
    target cim_system_creation_class_name cim_system_name : String)
    (reboot : Bool) : ConfigJobCall :=
  ⟨resource_uri, cim_creation_class_name, cim_name, target,
    cim_system_creation_class_name, cim_system_name, reboot⟩

/-- Modelled from the spec: JobManagement.delete_pending_config
(dracclient/resources/job.py, not under src/), modelled as the
descriptor of the delete-pending-configuration call it makes against the
given CIM service identity. -/
def delete_pending_config (resource_uri cim_creation_class_name cim_name
    target cim_system_creation_class_name cim_system_name : String) :
    DeletePendingCall :=
  ⟨resource_uri, cim_creation_class_name, cim_name, target,
    cim_system_creation_class_name, cim_system_name⟩

end JobManagement

namespace DRACClient

/-- client.py line 42. -/
def BIOS_DEVICE_FQDD : String := "BIOS.Setup.1-1"

/-- client.py line 43. -/
def IDRAC_FQDD : String := "iDRAC.Embedded.1"

/-- DRACClient.create_config_job (client.py lines 335-367): forwards
every parameter to JobManagement.create_config_job. -/
def create_config_job (resource_uri cim_creation_class_name cim_name
    target cim_system_creation_class_name cim_system_name : String)
    (reboot : Bool) : ConfigJobCall :=
  JobManagement.create_config_job resource_uri cim_creation_class_name
    cim_name target cim_system_creation_class_name cim_system_name reboot

/-- DRACClient.delete_pending_config (client.py lines 369-399): forwards
every parameter to JobManagement.delete_pending_config. -/
def delete_pending_config (resource_uri cim_creation_class_name cim_name
    target cim_system_creation_class_name cim_system_name : String) :
    DeletePendingCall :=
  JobManagement.delete_pending_config resource_uri cim_creation_class_name
    cim_name target cim_system_creation_class_name cim_system_name

/-- DRACClient.commit_pending_idrac_changes (client.py lines 244-264). -/
def commit_pending_idrac_changes (idrac_fqdd : String) (reboot : Bool) :
    ConfigJobCall :=
  JobManagement.create_config_job uris.DCIM_iDRACCardService
    "DCIM_iDRACCardService" "DCIM:iDRACCardService" idrac_fqdd
    "DCIM_ComputerSystem" "DCIM:ComputerSystem" reboot

/-- DRACClient.abandon_pending_idrac_changes (client.py lines 266-282). -/
def abandon_pending_idrac_changes (idrac_fqdd : String) : DeletePendingCall :=
  JobManagement.delete_pending_config uris.DCIM_iDRACCardService
    "DCIM_iDRACCardService" "DCIM:iDRACCardService" idrac_fqdd
    "DCIM_ComputerSystem" "DCIM:ComputerSystem"

/-- DRACClient.commit_pending_bios_changes (client.py lines 401-417). -/
def commit_pending_bios_changes (reboot : Bool) : ConfigJobCall :=
  JobManagement.create_config_job uris.DCIM_BIOSService "DCIM_BIOSService"
    "DCIM:BIOSService" BIOS_DEVICE_FQDD
    "DCIM_ComputerSystem" "DCIM:ComputerSystem" reboot

/-- DRACClient.abandon_pending_bios_changes (client.py lines 419-433). -/
def abandon_pending_bios_changes : DeletePendingCall :=
  JobManagement.delete_pending_config uris.DCIM_BIOSService
    "DCIM_BIOSService" "DCIM:BIOSService" BIOS_DEVICE_FQDD
    "DCIM_ComputerSystem" "DCIM:ComputerSystem"

/-- DRACClient.commit_pending_raid_changes (client.py lines 572-590). -/
def commit_pending_raid_changes (raid_controller : String) (reboot : Bool) :
    ConfigJobCall :=
  JobManagement.create_config_job uris.DCIM_RAIDService "DCIM_RAIDService"
    "DCIM:RAIDService" raid_controller
    "DCIM_ComputerSystem" "DCIM:ComputerSystem" reboot

/-- DRACClient.abandon_pending_raid_changes (client.py lines 592-607). -/
def abandon_pending_raid_changes (raid_controller : String) :
    DeletePendingCall :=
  JobManagement.delete_pending_config uris.DCIM_RAIDService
    "DCIM_RAIDService" "DCIM:RAIDService" raid_controller
    "DCIM_ComputerSystem" "DCIM:ComputerSystem"

end DRACClient

theorem probeSleepTrace_count_probe (d : Int) (k : Nat) :
    (probeSleepTrace d k).count .probeCall = k := by
  induction k with
  | zero => rfl
  | succ k ih =>
    cases k with
    | zero => rfl
    | succ m =>
      simp only [probeSleepTrace] at ih ⊢
      rw [List.count_cons, List.count_cons, ih]
      simp

theorem probeSleepTrace_count_sleep (d : Int) (k : Nat) :
    (probeSleepTrace d k).count (.sleepCall d) = k - 1 := by
  induction k with
  | zero => rfl
  | succ k ih =>
    cases k with
    | zero => rfl
    | succ m =>
      simp only [probeSleepTrace] at ih ⊢
      rw [List.count_cons, List.count_cons, ih]
      simp

theorem probeSleepTrace_getLast (d : Int) (k : Nat) :
    (probeSleepTrace d (k + 1)).getLast? = some .probeCall := by
  induction k with
  | zero => rfl
  | succ k ih =>
    show (Event.probeCall :: Event.sleepCall d ::
      probeSleepTrace d (k + 1)).getLast? = some Event.probeCall
    rw [List.getLast?_cons_cons]
    cases k with
    | zero => rfl
    | succ j =>
      show (Event.sleepCall d :: (Event.probeCall :: Event.sleepCall d ::
        probeSleepTrace d (j + 1))).getLast? = some Event.probeCall
      rw [List.getLast?_cons_cons]
      exact ih

/-- If the prober (as a pure boolean sequence) first reports ready at
offset k from idx, and more than k attempts remain, the loop succeeds
with trace probe (sleep probe)^k. -/
theorem waitGoNat_first_ready (p : Nat → Bool) (d : Int) :
    ∀ (k idx n : Nat), p (idx + k) = true → (∀ i, i < k → p (idx + i) = false) →
      k < n →
      waitGoNat (fun j => .ok (p j)) d n idx = (.ok (), probeSleepTrace d (k + 1)) := by
  intro k
  induction k with
  | zero =>
    intro idx n hready _ hn
    obtain ⟨m, rfl⟩ : ∃ m, n = m + 1 := ⟨n - 1, by omega⟩
    rw [Nat.add_zero] at hready
    simp only [waitGoNat, hready]
    rfl
  | succ k ih =>
    intro idx n hready hbefore hn
    obtain ⟨m, rfl⟩ : ∃ m, n = m + 1 := ⟨n - 1, by omega⟩
    have h0 : p idx = false := by
      have := hbefore 0 (Nat.succ_pos k)
      simpa using this
    have hm : k < m := by omega
    have hready2 : p ((idx + 1) + k) = true := by
      have : (idx + 1) + k = idx + (k + 1) := by omega
      rw [this]; exact hready
    have hbefore2 : ∀ i, i < k → p ((idx + 1) + i) = false := by
      intro i hi
      have : (idx + 1) + i = idx + (i + 1) := by omega
      rw [this]
      exact hbefore (i + 1) (by omega)
    have hrec := ih (idx + 1) m hready2 hbefore2 hm
    simp only [waitGoNat, h0]
    rw [hrec]
    have hmpos : 0 < m := by omega
    simp only [if_pos hmpos]
    cases k with
    | zero => rfl
    | succ j => rfl

/-- If the prober never reports ready among the first n attempts starting
at idx, the loop exhausts its attempts: timeout error, with trace
probe (sleep probe)^(n-1) and in particular no sleep after the last
probe. -/
theorem waitGoNat_exhaust (p : Nat → Bool) (d : Int) :
    ∀ (n idx : Nat), (∀ i, i < n → p (idx + i) = false) →
      waitGoNat (fun j => .ok (p j)) d n idx =
        (.error (.DRACOperationFailed (.str TIMEOUT_MSG)), probeSleepTrace d n) := by
  intro n
  induction n with
  | zero => intro idx _; rfl
  | succ n ih =>
    intro idx hall
    have h0 : p idx = false := by
      have := hall 0 (Nat.succ_pos n)
      simpa using this
    have hall2 : ∀ i, i < n → p ((idx + 1) + i) = false := by
      intro i hi
      have : (idx + 1) + i = idx + (i + 1) := by omega
      rw [this]
      exact hall (i + 1) (by omega)
    have hrec := ih (idx + 1) hall2
    simp only [waitGoNat, h0]
    rw [hrec]
    cases n with
    | zero => rfl
    | succ m => simp only [if_pos (Nat.succ_pos m)]; rfl

theorem RET_SUCCESS_ne_RET_ERROR : RET_SUCCESS ≠ RET_ERROR := by decide

theorem invokeValidate_error_code (resp : Response) (erv : Option String)
    (h : resp.returnValue = RET_ERROR) :
    invokeValidate resp erv true
      = .error (.DRACOperationFailed (.list resp.messages)) := by
  simp [invokeValidate, h]

theorem invokeValidate_mismatch (resp : Response) (expected : String)
    (h : resp.returnValue ≠ RET_ERROR) (h2 : resp.returnValue ≠ expected) :
    invokeValidate resp (some expected) true
      = .error (.DRACUnexpectedReturnValue expected resp.returnValue) := by
  simp [invokeValidate, h, h2]

theorem invokeValidate_ok_some (resp : Response)
    (h : resp.returnValue ≠ RET_ERROR) :
    invokeValidate resp (some resp.returnValue) true = .ok resp := by
  simp [invokeValidate, h]

theorem invokeValidate_ok_none (resp : Response)
    (h : resp.returnValue ≠ RET_ERROR) :
    invokeValidate resp none true = .ok resp := by
  simp [invokeValidate, h]

theorem invokeValidate_no_check (resp : Response) (erv : Option String) :
    invokeValidate resp erv false = .ok resp := rfl

/-- When the readiness gate reports success, the outcome of invoke is
exactly the outcome of its return-code validation block. -/
theorem invoke_fst_of_gate_ok (sess : Session)
    (prober : Nat → Except DRACException Bool) (resource_uri method : String)
    (selectors properties : Option (List (String × String)))
    (resp : Response) (erv : Option String) (wfi crv : Bool)
    (hgate : (wait_until_idrac_is_ready sess prober none none).1 = .ok ()) :
    (invoke sess prober resource_uri method selectors properties resp
        erv wfi crv).1 = invokeValidate resp erv crv := by
  cases wfi with
  | false => rfl
  | true => simp [invoke, hgate]

/-- C1: whenever the readiness gate lets the call proceed, invoke with
return-value checking enabled on a response whose return code equals the
ERROR sentinel raises DRACOperationFailed carrying the list of every
message text of the response, regardless of whether an
expected_return_value was supplied and regardless of its value. -/
theorem invoke_error_code_always_raises_operation_failed (sess : Session)
    (prober : Nat → Except DRACException Bool) (resource_uri method : String)
    (selectors properties : Option (List (String × String)))
    (resp : Response) (expected_return_value : Option String)
    (wait_for_idrac : Bool)
    (hgate : (wait_until_idrac_is_ready sess prober none none).1 = .ok ())
    (herr : resp.returnValue = RET_ERROR) :
    (invoke sess prober resource_uri method selectors properties resp
        expected_return_value wait_for_idrac true).1
      = .error (.DRACOperationFailed (.list resp.messages)) := by
  rw [invoke_fst_of_gate_ok sess prober resource_uri method selectors
    properties resp expected_return_value wait_for_idrac true hgate]
  exact invokeValidate_error_code resp expected_return_value herr

theorem invoke_error_code_always_raises_operation_failed_witness :
    ((wait_until_idrac_is_ready ⟨1, 0⟩ (fun _ => .ok true) none none).1
        = .ok () ∧
      Response.returnValue ⟨RET_ERROR, ["a", "b"], "x"⟩ = RET_ERROR) ∧
    (invoke ⟨1, 0⟩ (fun _ => .ok true) "uri" "M" none none
        ⟨RET_ERROR, ["a", "b"], "x"⟩ (some RET_ERROR) true true).1
      = .error (.DRACOperationFailed (.list ["a", "b"])) :=
  ⟨⟨rfl, rfl⟩,
    invoke_error_code_always_raises_operation_failed ⟨1, 0⟩
      (fun _ => .ok true) "uri" "M" none none ⟨RET_ERROR, ["a", "b"], "x"⟩
      (some RET_ERROR) true rfl rfl⟩

/-- C3: whenever the readiness gate lets the call proceed, invoke with
return-value checking enabled on a response whose return code is not the
ERROR sentinel raises DRACUnexpectedReturnValue carrying the expected and
the actual code when an expected_return_value was supplied and differs
from the actual code, and returns the response unchanged when the actual
code equals the expected value or no expectation was supplied. -/
theorem invoke_mismatch_raises_and_match_returns (sess : Session)
    (prober : Nat → Except DRACException Bool) (resource_uri method : String)
    (selectors properties : Option (List (String × String)))
    (resp : Response) (wait_for_idrac : Bool)
    (hgate : (wait_until_idrac_is_ready sess prober none none).1 = .ok ())
    (hne : resp.returnValue ≠ RET_ERROR) :
    (∀ expected : String, resp.returnValue ≠ expected →
      (invoke sess prober resource_uri method selectors properties resp
          (some expected) wait_for_idrac true).1
        = .error (.DRACUnexpectedReturnValue expected resp.returnValue)) ∧
    (invoke sess prober resource_uri method selectors properties resp
        (some resp.returnValue) wait_for_idrac true).1 = .ok resp ∧
    (invoke sess prober resource_uri method selectors properties resp
        none wait_for_idrac true).1 = .ok resp := by
  refine ⟨fun expected h2 => ?_, ?_, ?_⟩
  · rw [invoke_fst_of_gate_ok sess prober resource_uri method selectors
      properties resp (some expected) wait_for_idrac true hgate]
    exact invokeValidate_mismatch resp expected hne h2
  · rw [invoke_fst_of_gate_ok sess prober resource_uri method selectors
      properties resp (some resp.returnValue) wait_for_idrac true hgate]
    exact invokeValidate_ok_some resp hne
  · rw [invoke_fst_of_gate_ok sess prober resource_uri method selectors
      properties resp none wait_for_idrac true hgate]
    exact invokeValidate_ok_none resp hne

theorem invoke_mismatch_raises_and_match_returns_witness :
    ((wait_until_idrac_is_ready ⟨1, 0⟩ (fun _ => .ok true) none none).1
        = .ok () ∧
      Response.returnValue ⟨"1", [], "x"⟩ ≠ RET_ERROR ∧
      Response.returnValue ⟨"1", [], "x"⟩ ≠ "0") ∧
    (invoke ⟨1, 0⟩ (fun _ => .ok true) "uri" "M" none none
        ⟨"1", [], "x"⟩ (some "0") true true).1
      = .error (.DRACUnexpectedReturnValue "0" "1") ∧
    (invoke ⟨1, 0⟩ (fun _ => .ok true) "uri" "M" none none
        ⟨"1", [], "x"⟩ (some "1") true true).1 = .ok ⟨"1", [], "x"⟩ :=
  ⟨⟨rfl, by decide, by decide⟩,
    (invoke_mismatch_raises_and_match_returns ⟨1, 0⟩ (fun _ => .ok true)
      "uri" "M" none none ⟨"1", [], "x"⟩ true rfl (by decide)).1
      "0" (by decide),
    (invoke_mismatch_raises_and_match_returns ⟨1, 0⟩ (fun _ => .ok true)
      "uri" "M" none none ⟨"1", [], "x"⟩ true rfl (by decide)).2.1⟩

/-- C5: whenever the readiness gate lets the call proceed, invoke with
return-value checking disabled returns the raw transport response and
never raises based on the return-code content, even when the return code
equals the ERROR sentinel or differs from a supplied
expected_return_value. -/
theorem invoke_without_check_never_raises_on_code (sess : Session)
    (prober : Nat → Except DRACException Bool) (resource_uri method : String)
    (selectors properties : Option (List (String × String)))
    (resp : Response) (expected_return_value : Option String)
    (wait_for_idrac : Bool)
    (hgate : (wait_until_idrac_is_ready sess prober none none).1 = .ok ()) :
    (invoke sess prober resource_uri method selectors properties resp
        expected_return_value wait_for_idrac false).1 = .ok resp := by
  rw [invoke_fst_of_gate_ok sess prober resource_uri method selectors
    properties resp expected_return_value wait_for_idrac false hgate]
  rfl

theorem invoke_without_check_never_raises_on_code_witness :
    (wait_until_idrac_is_ready ⟨1, 0⟩ (fun _ => .ok true) none none).1
        = .ok () ∧
    (invoke ⟨1, 0⟩ (fun _ => .ok true) "uri" "M" none none
        ⟨RET_ERROR, ["a"], "x"⟩ (some "0") true false).1
      = .ok ⟨RET_ERROR, ["a"], "x"⟩ :=
  ⟨rfl,
    invoke_without_check_never_raises_on_code ⟨1, 0⟩ (fun _ => .ok true)
      "uri" "M" none none ⟨RET_ERROR, ["a"], "x"⟩ (some "0") true rfl⟩

/-- C2: for every maxAttempts N greater than 0, called with that retry
count and a given delay: if the prober first reports ready on attempt k
with k at most N, the gate returns successfully with a trace of exactly k
probe calls and k-1 sleeps of the given delay, ending on a probe; if the
prober never reports ready within N attempts, the gate fails after
exactly N probe calls and N-1 sleeps, with no sleep after the final
probe. -/
theorem wait_probe_and_sleep_counts (sess : Session) (p : Nat → Bool)
    (d : Int) (N : Int) (hN : 0 < N) :
    (∀ k : Nat, 1 ≤ k → (k : Int) ≤ N → p (k - 1) = true →
      (∀ i, i < k - 1 → p i = false) →
      wait_until_idrac_is_ready sess (fun n => .ok (p n)) (some N) (some d)
          = (.ok (), probeSleepTrace d k) ∧
        (probeSleepTrace d k).count .probeCall = k ∧
        (probeSleepTrace d k).count (.sleepCall d) = k - 1 ∧
        (probeSleepTrace d k).getLast? = some .probeCall) ∧
    ((∀ i : Nat, (i : Int) < N → p i = false) →
      wait_until_idrac_is_ready sess (fun n => .ok (p n)) (some N) (some d)
          = (.error (.DRACOperationFailed (.str TIMEOUT_MSG)),
             probeSleepTrace d N.toNat) ∧
        (probeSleepTrace d N.toNat).count .probeCall = N.toNat ∧
        (probeSleepTrace d N.toNat).count (.sleepCall d) = N.toNat - 1 ∧
        (probeSleepTrace d N.toNat).getLast? = some .probeCall) := by
  have hwait : wait_until_idrac_is_ready sess (fun n => .ok (p n))
      (some N) (some d) = waitGoNat (fun n => .ok (p n)) d N.toNat 0 := by
    simp only [wait_until_idrac_is_ready]
    rw [if_neg (by omega)]
  constructor
  · intro k hk hkN hready hbefore
    obtain ⟨m, rfl⟩ : ∃ m, k = m + 1 := ⟨k - 1, by omega⟩
    have hlt : m < N.toNat := by omega
    have hr : p (0 + m) = true := by simpa using hready
    have hb : ∀ i, i < m → p (0 + i) = false := by
      intro i hi
      simpa using hbefore i (by omega)
    refine ⟨?_, probeSleepTrace_count_probe d (m + 1),
      probeSleepTrace_count_sleep d (m + 1), probeSleepTrace_getLast d m⟩
    rw [hwait]
    exact waitGoNat_first_ready p d m 0 N.toNat hr hb hlt
  · intro hnever
    have hb : ∀ i, i < N.toNat → p (0 + i) = false := by
      intro i hi
      simpa using hnever i (by omega)
    refine ⟨?_, probeSleepTrace_count_probe d N.toNat,
      probeSleepTrace_count_sleep d N.toNat, ?_⟩
    · rw [hwait]
      exact waitGoNat_exhaust p d N.toNat 0 hb
    · obtain ⟨m, hm⟩ : ∃ m, N.toNat = m + 1 := ⟨N.toNat - 1, by omega⟩
      rw [hm]
      exact probeSleepTrace_getLast d m

theorem wait_probe_and_sleep_counts_witness :
    (0 < (5 : Int) ∧ (1 : Nat) ≤ 3 ∧ ((3 : Nat) : Int) ≤ 5) ∧
    wait_until_idrac_is_ready ⟨0, 0⟩ (fun n => .ok (n == 2)) (some 5) (some 7)
        = (.ok (), probeSleepTrace 7 3) ∧
      (probeSleepTrace 7 3).count .probeCall = 3 ∧
      (probeSleepTrace 7 3).count (.sleepCall 7) = 3 - 1 ∧
      (probeSleepTrace 7 3).getLast? = some .probeCall :=
  ⟨⟨by decide, by decide, by decide⟩,
    (wait_probe_and_sleep_counts ⟨0, 0⟩ (fun n => n == 2) 7 5 (by decide)).1
      3 (by decide) (by decide) (by decide) (by decide)⟩

/-- C4: called with retries equal to 0, the gate fails immediately with
the readiness-timeout error, with an empty event trace (no probe call
and no sleep, for every prober), and its result is exactly that of the
loop-exhaustion embedding waitGoNat at zero remaining attempts for any
delay. -/
theorem wait_zero_retries_fails_without_probing (sess : Session)
    (prober : Nat → Except DRACException Bool) (retry_delay : Option Int) :
    wait_until_idrac_is_ready sess prober (some 0) retry_delay
        = (.error (.DRACOperationFailed (.str TIMEOUT_MSG)), []) ∧
    (∀ d2 : Int, wait_until_idrac_is_ready sess prober (some 0) retry_delay
        = waitGoNat prober d2 0 0) :=
  ⟨rfl, fun _ => rfl⟩

/-- C9: when the gate exhausts its attempts without ever observing
readiness it raises DRACOperationFailed carrying the fixed message, and
this failure value is distinct from every transport-failure and
invalid-response error. -/
theorem wait_exhaustion_error_kind_and_distinctness (sess : Session)
    (p : Nat → Bool) (d N : Int) (hN : 0 < N)
    (hnever : ∀ i : Nat, p i = false) :
    (wait_until_idrac_is_ready sess (fun n => .ok (p n)) (some N) (some d)).1
        = .error (.DRACOperationFailed
            (.str "Timed out waiting for the iDRAC to become ready")) ∧
    (∀ s, DRACException.DRACOperationFailed
        (.str "Timed out waiting for the iDRAC to become ready")
          ≠ .WSManRequestFailure s) ∧
    (∀ s, DRACException.DRACOperationFailed
        (.str "Timed out waiting for the iDRAC to become ready")
          ≠ .WSManInvalidResponse s) := by
  refine ⟨?_, fun s h => DRACException.noConfusion h,
    fun s h => DRACException.noConfusion h⟩
  have hwait : wait_until_idrac_is_ready sess (fun n => .ok (p n))
      (some N) (some d) = waitGoNat (fun n => .ok (p n)) d N.toNat 0 := by
    simp only [wait_until_idrac_is_ready]
    rw [if_neg (by omega)]
  rw [hwait, waitGoNat_exhaust p d N.toNat 0 (fun i _ => hnever (0 + i))]
  rfl

theorem wait_exhaustion_error_kind_and_distinctness_witness :
    (0 < (2 : Int) ∧ ∀ i : Nat, (fun _ => false) i = false) ∧
    (wait_until_idrac_is_ready ⟨0, 0⟩ (fun _ => .ok false)
        (some 2) (some 1)).1
      = .error (.DRACOperationFailed
          (.str "Timed out waiting for the iDRAC to become ready")) ∧
    (∀ s, DRACException.DRACOperationFailed
        (.str "Timed out waiting for the iDRAC to become ready")
          ≠ .WSManRequestFailure s) ∧
    (∀ s, DRACException.DRACOperationFailed
        (.str "Timed out waiting for the iDRAC to become ready")
          ≠ .WSManInvalidResponse s) :=
  ⟨⟨by decide, fun _ => rfl⟩,
    wait_exhaustion_error_kind_and_distinctness ⟨0, 0⟩ (fun _ => false) 1 2
      (by decide) (fun _ => rfl)⟩

/-- C10: for every negative retries value the gate returns normally with
an empty event trace (no probe call, no sleep, no timeout error), for
every prober, because the retry loop is skipped and the exhaustion check
tests equality with zero. -/
theorem wait_negative_retries_returns_without_probing (sess : Session)
    (prober : Nat → Except DRACException Bool) (retry_delay : Option Int)
    (retries : Int) (hneg : retries < 0) :
    wait_until_idrac_is_ready sess prober (some retries) retry_delay
      = (.ok (), []) := by
  simp only [wait_until_idrac_is_ready]
  rw [if_pos hneg]

theorem wait_negative_retries_returns_without_probing_witness :
    (-1 : Int) < 0 ∧
    wait_until_idrac_is_ready ⟨3, 5⟩ (fun _ => .ok false) (some (-1)) (some 2)
      = (.ok (), []) :=
  ⟨by decide,
    wait_negative_retries_returns_without_probing ⟨3, 5⟩ (fun _ => .ok false)
      (some 2) (-1) (by decide)⟩

/-- The probe reduces to the validation of its single transport response
followed by the MessageID comparison, with a trace of exactly the one
raw invocation and no probe or sleep events. -/
theorem is_idrac_ready_eq (sess : Session)
    (prober : Nat → Except DRACException Bool) (resp : Response) :
    is_idrac_ready sess prober resp =
      (match invokeValidate resp (some RET_SUCCESS) true with
        | .error e => .error e
        | .ok r => .ok (r.messageID == IDRAC_IS_READY),
       [.transportInvoke uris.DCIM_LCService "GetRemoteServicesAPIStatus"
          is_idrac_ready_selectors []]) := by
  cases h : invokeValidate resp (some RET_SUCCESS) true with
  | error e => simp [is_idrac_ready, invoke, h]
  | ok r => simp [is_idrac_ready, invoke, h]

theorem is_idrac_ready_fst (sess : Session)
    (prober : Nat → Except DRACException Bool) (resp : Response) :
    (is_idrac_ready sess prober resp).1 =
      match invokeValidate resp (some RET_SUCCESS) true with
      | .error e => .error e
      | .ok r => .ok (r.messageID == IDRAC_IS_READY) := by
  rw [is_idrac_ready_eq]

/-- C6: is_idrac_ready issues exactly one invocation with readiness
gating disabled: its behaviour is independent of the session policy and
the prober (it never re-enters the readiness gate), and its trace is the
single raw transport invocation of GetRemoteServicesAPIStatus with no
probe or sleep events. That invocation undergoes normal return-code
validation with the SUCCESS sentinel as expected value, and the probe
reports true exactly when the decoded MessageID equals the fixed ready
sentinel IDRAC_IS_READY, the string LC061. -/
theorem is_idrac_ready_single_gateless_validated_probe
    (sess sess2 : Session)
    (prober prober2 : Nat → Except DRACException Bool) (resp : Response) :
    is_idrac_ready sess prober resp = is_idrac_ready sess2 prober2 resp ∧
    (is_idrac_ready sess prober resp).2
        = [.transportInvoke uris.DCIM_LCService "GetRemoteServicesAPIStatus"
            is_idrac_ready_selectors []] ∧
    (resp.returnValue = RET_ERROR →
      (is_idrac_ready sess prober resp).1
        = .error (.DRACOperationFailed (.list resp.messages))) ∧
    (resp.returnValue ≠ RET_ERROR → resp.returnValue ≠ RET_SUCCESS →
      (is_idrac_ready sess prober resp).1
        = .error (.DRACUnexpectedReturnValue RET_SUCCESS resp.returnValue)) ∧
    (resp.returnValue = RET_SUCCESS →
      (is_idrac_ready sess prober resp).1
        = .ok (resp.messageID == IDRAC_IS_READY)) ∧
    ((is_idrac_ready sess prober resp).1 = .ok true ↔
      resp.returnValue = RET_SUCCESS ∧ resp.messageID = IDRAC_IS_READY) := by
  refine ⟨by rw [is_idrac_ready_eq, is_idrac_ready_eq],
    by rw [is_idrac_ready_eq], ?_, ?_, ?_, ?_⟩
  · intro h
    rw [is_idrac_ready_fst, invokeValidate_error_code resp (some RET_SUCCESS) h]
  · intro h h2
    rw [is_idrac_ready_fst, invokeValidate_mismatch resp RET_SUCCESS h h2]
  · intro h
    have hne : resp.returnValue ≠ RET_ERROR := by
      rw [h]; exact RET_SUCCESS_ne_RET_ERROR
    rw [is_idrac_ready_fst, ← h, invokeValidate_ok_some resp hne]
  · constructor
    · intro hok
      by_cases h : resp.returnValue = RET_ERROR
      · rw [is_idrac_ready_fst,
          invokeValidate_error_code resp (some RET_SUCCESS) h] at hok
        simp at hok
      · by_cases h2 : resp.returnValue = RET_SUCCESS
        · rw [is_idrac_ready_fst, ← h2, invokeValidate_ok_some resp h] at hok
          simp only [Except.ok.injEq] at hok
          exact ⟨h2, by simpa using hok⟩
        · rw [is_idrac_ready_fst,
            invokeValidate_mismatch resp RET_SUCCESS h h2] at hok
          simp at hok
    · rintro ⟨h2, hmsg⟩
      have hne : resp.returnValue ≠ RET_ERROR := by
        rw [h2]; exact RET_SUCCESS_ne_RET_ERROR
      rw [is_idrac_ready_fst, ← h2, invokeValidate_ok_some resp hne]
      simp [hmsg]

theorem is_idrac_ready_single_gateless_validated_probe_witness :
    (is_idrac_ready ⟨1, 0⟩ (fun _ => .ok true) ⟨"0", [], "LC061"⟩).2
        = [.transportInvoke uris.DCIM_LCService "GetRemoteServicesAPIStatus"
            is_idrac_ready_selectors []] ∧
    (is_idrac_ready ⟨1, 0⟩ (fun _ => .ok true) ⟨"0", [], "LC061"⟩).1
        = .ok true :=
  ⟨(is_idrac_ready_single_gateless_validated_probe ⟨1, 0⟩ ⟨2, 2⟩
      (fun _ => .ok true) (fun _ => .ok false) ⟨"0", [], "LC061"⟩).2.1,
    (is_idrac_ready_single_gateless_validated_probe ⟨1, 0⟩ ⟨2, 2⟩
      (fun _ => .ok true) (fun _ => .ok false)
      ⟨"0", [], "LC061"⟩).2.2.2.2.2.mpr ⟨rfl, rfl⟩⟩

/-- C7: with the gating flag enabled, both invoke and enumerate run the
readiness gate before issuing the raw transport request: a gate failure
propagates unchanged, with the gate's own trace and no transport event;
on gate success the trace is the gate's trace followed by the single
transport request event. Enumerate returns its transport response as-is,
performing no return-code validation for any input. -/
theorem invoke_enumerate_gating_and_no_validation (sess : Session)
    (prober : Nat → Except DRACException Bool) (resource_uri method : String)
    (selectors properties : Option (List (String × String)))
    (resp : Response) (erv : Option String) (crv : Bool)
    (optimization : Bool) (max_elems : Int) (auto_pull : Bool)
    (filter_query : Option String) (filter_dialect : String) :
    (∀ e tr, wait_until_idrac_is_ready sess prober none none = (.error e, tr) →
      invoke sess prober resource_uri method selectors properties resp erv
          true crv = (.error e, tr) ∧
      enumerate sess prober resource_uri optimization max_elems auto_pull
          filter_query filter_dialect resp true = (.error e, tr)) ∧
    (∀ tr, wait_until_idrac_is_ready sess prober none none = (.ok (), tr) →
      invoke sess prober resource_uri method selectors properties resp erv
          true crv
        = (invokeValidate resp erv crv,
           tr ++ [.transportInvoke resource_uri method (selectors.getD [])
             (properties.getD [])]) ∧
      enumerate sess prober resource_uri optimization max_elems auto_pull
          filter_query filter_dialect resp true
        = (.ok resp,
           tr ++ [.transportEnumerate resource_uri optimization max_elems
             auto_pull filter_query filter_dialect])) := by
  constructor
  · intro e tr h
    constructor
    · simp [invoke, h]
    · simp [enumerate, h]
  · intro tr h
    constructor
    · cases selectors <;> cases properties <;> simp [invoke, h, Option.getD]
    · simp [enumerate, h]

theorem invoke_enumerate_gating_and_no_validation_witness :
    wait_until_idrac_is_ready ⟨1, 0⟩
        (fun _ => .error (.WSManRequestFailure "down")) none none
      = (.error (.WSManRequestFailure "down"), [.probeCall]) ∧
    invoke ⟨1, 0⟩ (fun _ => .error (.WSManRequestFailure "down")) "uri" "M"
        none none ⟨"0", [], "x"⟩ none true true
      = (.error (.WSManRequestFailure "down"), [.probeCall]) ∧
    enumerate ⟨1, 0⟩ (fun _ => .error (.WSManRequestFailure "down")) "uri"
        true 100 true none "cql" ⟨"0", [], "x"⟩ true
      = (.error (.WSManRequestFailure "down"), [.probeCall]) :=
  ⟨rfl,
    ((invoke_enumerate_gating_and_no_validation ⟨1, 0⟩
        (fun _ => .error (.WSManRequestFailure "down")) "uri" "M" none none
        ⟨"0", [], "x"⟩ none true true 100 true none "cql").1
      (.WSManRequestFailure "down") [.probeCall] rfl).1,
    ((invoke_enumerate_gating_and_no_validation ⟨1, 0⟩
        (fun _ => .error (.WSManRequestFailure "down")) "uri" "M" none none
        ⟨"0", [], "x"⟩ none true true 100 true none "cql").1
      (.WSManRequestFailure "down") [.probeCall] rfl).2⟩

/-- C8: each subsystem-specific commit/abandon operation equals the
generic create_config_job / delete_pending_config applied to the fixed
(resource URI, creation class name, name) triple of its CIM service and
the default scoping system, forwarding only target and reboot, with no
additional logic. -/
theorem subsystem_commit_abandon_thin_specializations :
    (∀ idrac_fqdd reboot,
      DRACClient.commit_pending_idrac_changes idrac_fqdd reboot
        = DRACClient.create_config_job uris.DCIM_iDRACCardService
            "DCIM_iDRACCardService" "DCIM:iDRACCardService" idrac_fqdd
            "DCIM_ComputerSystem" "DCIM:ComputerSystem" reboot) ∧
    (∀ idrac_fqdd,
      DRACClient.abandon_pending_idrac_changes idrac_fqdd
        = DRACClient.delete_pending_config uris.DCIM_iDRACCardService
            "DCIM_iDRACCardService" "DCIM:iDRACCardService" idrac_fqdd
            "DCIM_ComputerSystem" "DCIM:ComputerSystem") ∧
    (∀ reboot,
      DRACClient.commit_pending_bios_changes reboot
        = DRACClient.create_config_job uris.DCIM_BIOSService
            "DCIM_BIOSService" "DCIM:BIOSService" DRACClient.BIOS_DEVICE_FQDD
            "DCIM_ComputerSystem" "DCIM:ComputerSystem" reboot) ∧
    (DRACClient.abandon_pending_bios_changes
        = DRACClient.delete_pending_config uris.DCIM_BIOSService
            "DCIM_BIOSService" "DCIM:BIOSService" DRACClient.BIOS_DEVICE_FQDD
            "DCIM_ComputerSystem" "DCIM:ComputerSystem") ∧
    (∀ raid_controller reboot,
      DRACClient.commit_pending_raid_changes raid_controller reboot
        = DRACClient.create_config_job uris.DCIM_RAIDService
            "DCIM_RAIDService" "DCIM:RAIDService" raid_controller
            "DCIM_ComputerSystem" "DCIM:ComputerSystem" reboot) ∧
    (∀ raid_controller,
      DRACClient.abandon_pending_raid_changes raid_controller
        = DRACClient.delete_pending_config uris.DCIM_RAIDService
            "DCIM_RAIDService" "DCIM:RAIDService" raid_controller
            "DCIM_ComputerSystem" "DCIM:ComputerSystem") :=
  ⟨fun _ _ => rfl, fun _ => rfl, fun _ => rfl, rfl, fun _ _ => rfl,
    fun _ => rfl⟩

end Dracclient
